import Mathlib

/-!
Verification of the Istio ingress-gateway port analyzer
(galley/pkg/config/analysis/analyzers/gateway/gateway.go).

The analyzer cross-references each Gateway resource's declared listener
ports against the TCP ports of the Kubernetes services that select the
workloads (pods) matched by the gateway's workload selector, with a
fixed default port set as fallback when the selector is exactly the
well-known system selector and matches no workload.

Shallow embedding: the resource snapshot becomes lists of records, the
Go maps become association lists (selectors/labels) and a Finset Nat
(the servicePorts set), the ForEach visitors become an explicit
fold-with-stop (forEachStop) whose visitors return a continue flag,
and the diagnostic sink becomes an accumulated list of Diag values.
The global defaultIngressGatewayPorts table is threaded through
analyzeGatewaySt as explicit state so that the aliasing in the
fallback branch (servicePorts = defaultIngressGatewayPorts) is
observable: the returned second component is the global table's value
after the evaluation.
-/

namespace GatewayAnalysis

/-- Label sets and selectors are Go map[string]string values; we embed
them as association lists (Go maps have unique keys; the code only
reads them via lookup and length). -/
abbrev Labels := List (String × String)

/-- One entry of v1.ServiceSpec.Ports: a port number and its protocol.
Port numbers are embedded as Nat (the code stores uint32(port.Port)). -/
structure ServicePort where
  port : Nat
  protocol : String
  deriving DecidableEq, Repr

/-- A v1.Service as the analyzer sees it: the namespace from the
resource metadata FullName, the ServiceSpec selector, and the ports. -/
structure ServiceRes where
  ns : String
  selector : Labels
  ports : List ServicePort
  deriving DecidableEq, Repr

/-- A v1.Pod as the analyzer sees it: ObjectMeta namespace and labels. -/
structure Pod where
  ns : String
  labels : Labels
  deriving DecidableEq, Repr

/-- One Server (listener) of a Gateway: server.Port is a nullable
pointer, of which only the Number field is read. -/
structure Server where
  port : Option Nat
  deriving DecidableEq, Repr

/-- A v1alpha3.Gateway resource: its name (standing for the resource
instance reported on), workload selector, and servers (listeners). -/
structure Gateway where
  name : String
  selector : Labels
  servers : List Server
  deriving DecidableEq, Repr

/-- The immutable resource snapshot handed to Analyze: all gateways,
pods and services, each in the snapshot's stable iteration order. -/
structure Snapshot where
  gateways : List Gateway
  pods : List Pod
  services : List ServiceRes
  deriving DecidableEq, Repr

/-- A diagnostic reported through the sink: either
msg.NewReferencedResourceNotFound(r, field, detail) or
msg.NewGatewayPortNotOnWorkload(r, detail, port), tagged with the name
of the gateway resource it is attached to. -/
inductive Diag where
  | referencedResourceNotFound (gwName field detail : String)
  | gatewayPortNotOnWorkload (gwName detail : String) (port : Nat)
  deriving DecidableEq, Repr

/-- Go map read m[k]: the first binding for k, or the zero value ""
when k is absent (used for gw.Selector["istio"]). -/
def mapGet (m : Labels) (k : String) : String :=
  (List.lookup k m).getD ""

/-- k8s_labels.SelectorFromSet(sel).Matches(labels): conjunctive
equality-based label selection — every required key must be present in
the labels with exactly the required value; an empty selector matches
everything. (External capability of the apimachinery library.) -/
def selectorMatches (sel labels : Labels) : Bool :=
  sel.all fun kv => List.lookup kv.1 labels == some kv.2

/-- Deterministic model of gwSelector.String(): the requirements
rendered key=value and joined by commas. (External capability; the
claims only use that it is a function of the selector.) -/
def selectorString (sel : Labels) : String :=
  String.intercalate "," (sel.map fun kv => kv.1 ++ "=" ++ kv.2)

/-- Context.ForEach: invoke the visitor once per resource in snapshot
order, stopping early as soon as a visitor returns false. The visitor
threads the surrounding mutable state explicitly. -/
def forEachStop (f : σ → α → σ × Bool) : σ → List α → σ
  | s, [] => s
  | s, x :: xs =>
    let r := f s x
    if r.2 then forEachStop f r.1 xs else r.1

/-- The ports from install/kubernetes/istio.yaml's istio-ingressgateway
service, used only when a Gateway selects the system gateway and the
user does not supply it (global defaultIngressGatewayPorts map). -/
def defaultIngressGatewayPorts : Finset Nat := {80, 443, 31400, 15443}

/-- Body of the inner ports loop: for each port of a selecting service,
record it in servicePorts when its protocol is TCP. -/
def addTCPPort (a : Finset Nat) (p : ServicePort) : Finset Nat :=
  if p.protocol == "TCP" then insert p.port a else a

/-- The services ForEach visitor: skip services in a different
namespace than the pod, otherwise record the TCP ports of services
whose selector matches the pod's labels; always continue. -/
def svcVisitor (podLabels : Labels) (podNs : String) (acc : Finset Nat) (svc : ServiceRes) :
    Finset Nat × Bool :=
  if svc.ns != podNs then
    (acc, true)
  else if selectorMatches svc.selector podLabels then
    (svc.ports.foldl addTCPPort acc, true)
  else
    (acc, true)

/-- The pods ForEach visitor: when the gateway selector matches the
pod's labels, bump gwSelectorMatches and scan all services for this
pod; always continue. State is (servicePorts, gwSelectorMatches). -/
def podVisitor (services : List ServiceRes) (gwSel : Labels) (st : Finset Nat × Nat) (pod : Pod) :
    (Finset Nat × Nat) × Bool :=
  if selectorMatches gwSel pod.labels then
    ((forEachStop (svcVisitor pod.labels pod.ns) st.1 services, st.2 + 1), true)
  else
    (st, true)

/-- The service-port discovery phase of analyzeGateway: starting from
an empty servicePorts set and gwSelectorMatches = 0, run the pods loop. -/
def gatherServicePorts (pods : List Pod) (services : List ServiceRes) (gwSel : Labels) :
    Finset Nat × Nat :=
  forEachStop (podVisitor services gwSel) (∅, 0) pods

/-- The final listener-check loop of analyzeGateway: for each server
with a declared port, report GatewayPortNotOnWorkload when the port is
not in servicePorts. The servicePorts set is threaded as state so that
the (absent) writes of the loop body are observable in the result. -/
def checkServersSt (gwName detail : String) : List Server → Finset Nat → List Diag × Finset Nat
  | [], ps => ([], ps)
  | s :: rest, ps =>
    let step : List Diag × Finset Nat :=
      match s.port with
      | none => ([], ps)
      | some n =>
        (if n ∈ ps then [] else [Diag.gatewayPortNotOnWorkload gwName detail n], ps)
    let r := checkServersSt gwName detail rest step.2
    (step.1 ++ r.1, r.2)

/-- analyzeGateway with the global defaultIngressGatewayPorts table
threaded as explicit state (passed in as defaults, returned as the
second component). In the fallback branch the local servicePorts
variable aliases the global table, so there the check loop's final
state is the global's final value; in the other branches the global is
untouched. -/
def analyzeGatewaySt (pods : List Pod) (services : List ServiceRes) (defaults : Finset Nat)
    (gw : Gateway) : List Diag × Finset Nat :=
  let gathered := gatherServicePorts pods services gw.selector
  if gathered.2 == 0 then
    if gw.selector.length != 1 || mapGet gw.selector "istio" != "ingressgateway" then
      ([Diag.referencedResourceNotFound gw.name "selector" (selectorString gw.selector)],
        defaults)
    else
      let r := checkServersSt gw.name (selectorString gw.selector) gw.servers defaults
      (r.1, r.2)
  else
    let r := checkServersSt gw.name (selectorString gw.selector) gw.servers gathered.1
    (r.1, defaults)

/-- analyzeGateway as run by the analyzer: the diagnostics it reports
for one gateway, reading the real global default table. -/
def analyzeGateway (pods : List Pod) (services : List ServiceRes) (gw : Gateway) : List Diag :=
  (analyzeGatewaySt pods services defaultIngressGatewayPorts gw).1

/-- The gateways ForEach visitor of Analyze: run analyzeGateway,
append its reports to the sink, and always continue. -/
def gatewayVisitor (pods : List Pod) (services : List ServiceRes) (acc : List Diag)
    (gw : Gateway) : List Diag × Bool :=
  (acc ++ analyzeGateway pods services gw, true)

/-- Analyze with an explicit diagnostic sink: iterate all gateways of
the snapshot, appending each gateway's diagnostics to the sink. -/
def AnalyzeSink (snap : Snapshot) (sink : List Diag) : List Diag :=
  forEachStop (gatewayVisitor snap.pods snap.services) sink snap.gateways

/-- Analyze: one full analyzer pass over the snapshot, starting from
an empty sink. -/
def Analyze (snap : Snapshot) : List Diag :=
  AnalyzeSink snap []

/-- Sample pod for concrete evaluations (Scenario A of the spec). -/
def samplePod : Pod := { ns := "ns", labels := [("app", "gw")] }

/-- Sample service exposing TCP port 80 and selecting samplePod. -/
def sampleSvc : ServiceRes :=
  { ns := "ns", selector := [("app", "gw")], ports := [{ port := 80, protocol := "TCP" }] }

/-- Sample gateway selecting samplePod with a listener on port 443. -/
def sampleGw : Gateway :=
  { name := "gw0", selector := [("app", "gw")], servers := [{ port := some 443 }] }

/-- Sample gateway with the well-known system selector and a listener
on default port 31400 (Scenario C of the spec). -/
def systemGw : Gateway :=
  { name := "g", selector := [("istio", "ingressgateway")],
    servers := [{ port := some 31400 }] }

/-- Sample gateway whose selector matches nothing (Scenario D). -/
def unknownGw : Gateway :=
  { name := "g", selector := [("app", "unknown")], servers := [{ port := some 80 }] }

/-- Sample service in a different namespace than samplePod, selecting
its labels and exposing TCP 9999. -/
def otherNsSvc : ServiceRes :=
  { ns := "other", selector := [("app", "gw")],
    ports := [{ port := 9999, protocol := "TCP" }] }

/-- Scenario A snapshot: sampleGw, samplePod, sampleSvc. -/
def snapA : Snapshot :=
  { gateways := [sampleGw], pods := [samplePod], services := [sampleSvc] }

/-- A TCP service port, for concrete insertion-order checks. -/
def tcpPortA : ServicePort := { port := 80, protocol := "TCP" }

/-- A UDP service port, for concrete insertion-order checks. -/
def udpPortB : ServicePort := { port := 53, protocol := "UDP" }

/-! Helper lemmas about the loops. -/

theorem forEachStop_cons_true (f : σ → α → σ × Bool) (s : σ) (x : α) (xs : List α)
    (h : (f s x).2 = true) :
    forEachStop f s (x :: xs) = forEachStop f (f s x).1 xs := by
  simp [forEachStop, h]

theorem svcVisitor_continue (podLabels : Labels) (podNs : String) (acc : Finset Nat)
    (svc : ServiceRes) : (svcVisitor podLabels podNs acc svc).2 = true := by
  unfold svcVisitor
  split
  · rfl
  · split <;> rfl

theorem podVisitor_continue (services : List ServiceRes) (gwSel : Labels)
    (st : Finset Nat × Nat) (pod : Pod) : (podVisitor services gwSel st pod).2 = true := by
  unfold podVisitor
  split <;> rfl

theorem mem_foldl_addTCPPort (p : Nat) :
    ∀ (ports : List ServicePort) (acc : Finset Nat),
      p ∈ ports.foldl addTCPPort acc ↔
        p ∈ acc ∨ ∃ q ∈ ports, q.protocol = "TCP" ∧ q.port = p
  | [], acc => by simp
  | q :: rest, acc => by
    rw [List.foldl_cons, mem_foldl_addTCPPort p rest]
    unfold addTCPPort
    by_cases hq : q.protocol = "TCP"
    · simp [hq, or_assoc]
      tauto
    · simp [hq]

theorem mem_svcLoop (podLabels : Labels) (podNs : String) (p : Nat) :
    ∀ (services : List ServiceRes) (acc : Finset Nat),
      p ∈ forEachStop (svcVisitor podLabels podNs) acc services ↔
        p ∈ acc ∨ ∃ svc ∈ services, svc.ns = podNs ∧
          selectorMatches svc.selector podLabels = true ∧
          ∃ q ∈ svc.ports, q.protocol = "TCP" ∧ q.port = p
  | [], acc => by simp [forEachStop]
  | svc :: rest, acc => by
    rw [forEachStop_cons_true _ _ _ _ (svcVisitor_continue podLabels podNs acc svc),
      mem_svcLoop podLabels podNs p rest]
    unfold svcVisitor
    by_cases hns : svc.ns = podNs
    · by_cases hsel : selectorMatches svc.selector podLabels = true
      · simp [hns, hsel, mem_foldl_addTCPPort, or_assoc]
      · simp [hns, hsel]
    · simp [bne_iff_ne, hns]

theorem podLoop_snd (services : List ServiceRes) (gwSel : Labels) :
    ∀ (pods : List Pod) (st : Finset Nat × Nat),
      (forEachStop (podVisitor services gwSel) st pods).2 =
        st.2 + pods.countP (fun pod => selectorMatches gwSel pod.labels)
  | [], st => by simp [forEachStop]
  | pod :: rest, st => by
    rw [forEachStop_cons_true _ _ _ _ (podVisitor_continue services gwSel st pod),
      podLoop_snd services gwSel rest]
    unfold podVisitor
    by_cases hm : selectorMatches gwSel pod.labels = true
    · simp [hm, List.countP_cons]
      omega
    · simp [hm, List.countP_cons]

theorem podLoop_mem (services : List ServiceRes) (gwSel : Labels) (p : Nat) :
    ∀ (pods : List Pod) (st : Finset Nat × Nat),
      p ∈ (forEachStop (podVisitor services gwSel) st pods).1 ↔
        p ∈ st.1 ∨ ∃ pod ∈ pods, selectorMatches gwSel pod.labels = true ∧
          ∃ svc ∈ services, svc.ns = pod.ns ∧
            selectorMatches svc.selector pod.labels = true ∧
            ∃ q ∈ svc.ports, q.protocol = "TCP" ∧ q.port = p
  | [], st => by simp [forEachStop]
  | pod :: rest, st => by
    rw [forEachStop_cons_true _ _ _ _ (podVisitor_continue services gwSel st pod),
      podLoop_mem services gwSel p rest]
    unfold podVisitor
    by_cases hm : selectorMatches gwSel pod.labels = true
    · simp [hm, mem_svcLoop, or_assoc]
    · simp [hm]

theorem gather_snd (pods : List Pod) (services : List ServiceRes) (gwSel : Labels) :
    (gatherServicePorts pods services gwSel).2 =
      pods.countP (fun pod => selectorMatches gwSel pod.labels) := by
  unfold gatherServicePorts
  rw [podLoop_snd]
  simp

theorem mem_gather (pods : List Pod) (services : List ServiceRes) (gwSel : Labels) (p : Nat) :
    p ∈ (gatherServicePorts pods services gwSel).1 ↔
      ∃ pod ∈ pods, selectorMatches gwSel pod.labels = true ∧
        ∃ svc ∈ services, svc.ns = pod.ns ∧
          selectorMatches svc.selector pod.labels = true ∧
          ∃ q ∈ svc.ports, q.protocol = "TCP" ∧ q.port = p := by
  unfold gatherServicePorts
  rw [podLoop_mem]
  simp

theorem checkServersSt_cons (gwName detail : String) (s : Server) (rest : List Server)
    (ps : Finset Nat) :
    checkServersSt gwName detail (s :: rest) ps =
      ((match s.port with
        | none => []
        | some n =>
          if n ∈ ps then [] else [Diag.gatewayPortNotOnWorkload gwName detail n]) ++
        (checkServersSt gwName detail rest ps).1,
       (checkServersSt gwName detail rest ps).2) := by
  simp only [checkServersSt]
  cases s.port <;> simp

theorem checkServersSt_snd (gwName detail : String) :
    ∀ (servers : List Server) (ps : Finset Nat),
      (checkServersSt gwName detail servers ps).2 = ps
  | [], ps => rfl
  | s :: rest, ps => by
    rw [checkServersSt_cons]
    exact checkServersSt_snd gwName detail rest ps

theorem checkServersSt_append (gwName detail : String) (l2 : List Server) :
    ∀ (l1 : List Server) (ps : Finset Nat),
      (checkServersSt gwName detail (l1 ++ l2) ps).1 =
        (checkServersSt gwName detail l1 ps).1 ++ (checkServersSt gwName detail l2 ps).1
  | [], ps => by simp [checkServersSt]
  | s :: rest, ps => by
    simp only [List.cons_append]
    rw [checkServersSt_cons, checkServersSt_cons]
    simp [checkServersSt_append gwName detail l2 rest]

theorem mem_checkServersSt (gwName detail : String) (n : Nat) :
    ∀ (servers : List Server) (ps : Finset Nat),
      Diag.gatewayPortNotOnWorkload gwName detail n ∈
          (checkServersSt gwName detail servers ps).1 ↔
        ∃ s ∈ servers, s.port = some n ∧ n ∉ ps
  | [], ps => by simp [checkServersSt]
  | s :: rest, ps => by
    rw [checkServersSt_cons]
    cases hs : s.port with
    | none =>
      simp [hs, mem_checkServersSt gwName detail n rest]
    | some k =>
      by_cases hk : k ∈ ps
      · simp only [hs, hk, if_true, List.nil_append, List.mem_cons]
        rw [mem_checkServersSt gwName detail n rest]
        constructor
        · rintro ⟨t, ht, hp, hnp⟩
          exact ⟨t, Or.inr ht, hp, hnp⟩
        · rintro ⟨t, (rfl | ht), hp, hnp⟩
          · rw [hs] at hp
            cases hp
            exact absurd hk hnp
          · exact ⟨t, ht, hp, hnp⟩
      · simp only [hs, hk, if_false, List.singleton_append, List.mem_cons,
          Diag.gatewayPortNotOnWorkload.injEq]
        rw [mem_checkServersSt gwName detail n rest]
        constructor
        · rintro (⟨-, -, rfl⟩ | ⟨t, ht, hp, hnp⟩)
          · exact ⟨s, Or.inl rfl, hs, hk⟩
          · exact ⟨t, Or.inr ht, hp, hnp⟩
        · rintro ⟨t, (rfl | ht), hp, hnp⟩
          · rw [hs] at hp
            cases hp
            simp
          · exact Or.inr ⟨t, ht, hp, hnp⟩

theorem checkServersSt_empty_ports (gwName detail : String) :
    ∀ (servers : List Server),
      (checkServersSt gwName detail servers ∅).1 =
        (servers.filterMap Server.port).map
          (fun n => Diag.gatewayPortNotOnWorkload gwName detail n)
  | [] => rfl
  | s :: rest => by
    rw [checkServersSt_cons]
    cases hs : s.port <;>
      simp [hs, List.filterMap_cons, checkServersSt_empty_ports gwName detail rest]

theorem gather_snd_eq_zero (pods : List Pod) (services : List ServiceRes) (gwSel : Labels) :
    (gatherServicePorts pods services gwSel).2 = 0 ↔
      ∀ pod ∈ pods, ¬ selectorMatches gwSel pod.labels = true := by
  rw [gather_snd, List.countP_eq_zero]

theorem systemSelectorCondition (sel : Labels) :
    ((sel.length != 1 || mapGet sel "istio" != "ingressgateway") = false) ↔
      sel = [("istio", "ingressgateway")] := by
  constructor
  · intro h
    rw [Bool.or_eq_false_iff] at h
    obtain ⟨h1, h2⟩ := h
    rw [bne_eq_false_iff_eq] at h1 h2
    match sel, h1 with
    | [(k, v)], _ =>
      unfold mapGet at h2
      by_cases hk : "istio" = k
      · subst hk
        simp [List.lookup] at h2
        rw [h2]
      · have hbeq : ("istio" == k) = false := beq_eq_false_iff_ne.mpr hk
        simp [List.lookup, hbeq] at h2
  · intro h
    subst h
    decide

theorem analyzeGatewaySt_matched (pods : List Pod) (services : List ServiceRes)
    (defaults : Finset Nat) (gw : Gateway)
    (h : (gatherServicePorts pods services gw.selector).2 ≠ 0) :
    analyzeGatewaySt pods services defaults gw =
      ((checkServersSt gw.name (selectorString gw.selector) gw.servers
          (gatherServicePorts pods services gw.selector).1).1, defaults) := by
  unfold analyzeGatewaySt
  simp [h]

theorem analyzeGatewaySt_nomatch_other (pods : List Pod) (services : List ServiceRes)
    (defaults : Finset Nat) (gw : Gateway)
    (h0 : (gatherServicePorts pods services gw.selector).2 = 0)
    (h1 : gw.selector ≠ [("istio", "ingressgateway")]) :
    analyzeGatewaySt pods services defaults gw =
      ([Diag.referencedResourceNotFound gw.name "selector" (selectorString gw.selector)],
        defaults) := by
  have hc : (gw.selector.length != 1 || mapGet gw.selector "istio" != "ingressgateway")
      = true :=
    Bool.ne_false_iff.mp (mt (systemSelectorCondition gw.selector).mp h1)
  unfold analyzeGatewaySt
  simp [h0, hc]

theorem analyzeGatewaySt_nomatch_system (pods : List Pod) (services : List ServiceRes)
    (defaults : Finset Nat) (gw : Gateway)
    (h0 : (gatherServicePorts pods services gw.selector).2 = 0)
    (h1 : gw.selector = [("istio", "ingressgateway")]) :
    analyzeGatewaySt pods services defaults gw =
      checkServersSt gw.name (selectorString gw.selector) gw.servers defaults := by
  have hc := (systemSelectorCondition gw.selector).mpr h1
  unfold analyzeGatewaySt
  simp [h0, hc]

theorem gatewayLoop_sink (pods : List Pod) (services : List ServiceRes) :
    ∀ (gws : List Gateway) (acc : List Diag),
      forEachStop (gatewayVisitor pods services) acc gws =
        acc ++ forEachStop (gatewayVisitor pods services) [] gws
  | [], acc => by simp [forEachStop]
  | g :: gws, acc => by
    rw [forEachStop_cons_true _ _ _ _ rfl, forEachStop_cons_true _ _ _ _ rfl,
      gatewayLoop_sink pods services gws ((gatewayVisitor pods services acc g).1),
      gatewayLoop_sink pods services gws ((gatewayVisitor pods services [] g).1)]
    simp [gatewayVisitor]

theorem AnalyzeSink_eq (snap : Snapshot) (sink : List Diag) :
    AnalyzeSink snap sink = sink ++ Analyze snap := by
  unfold Analyze AnalyzeSink
  exact gatewayLoop_sink snap.pods snap.services snap.gateways sink

theorem gatewayLoop_append (pods : List Pod) (services : List ServiceRes) :
    ∀ (l1 l2 : List Gateway) (acc : List Diag),
      forEachStop (gatewayVisitor pods services) acc (l1 ++ l2) =
        forEachStop (gatewayVisitor pods services)
          (forEachStop (gatewayVisitor pods services) acc l1) l2
  | [], l2, acc => by simp [forEachStop]
  | g :: l1, l2, acc => by
    simp only [List.cons_append]
    rw [forEachStop_cons_true _ _ _ _ rfl, forEachStop_cons_true _ _ _ _ rfl]
    exact gatewayLoop_append pods services l1 l2 _

theorem addTCPPort_swap (acc : Finset Nat) (x y : ServicePort) :
    addTCPPort (addTCPPort acc x) y = addTCPPort (addTCPPort acc y) x := by
  unfold addTCPPort
  by_cases hx : x.protocol = "TCP" <;> by_cases hy : y.protocol = "TCP" <;>
    simp [hx, hy, Finset.Insert.comm]

theorem foldl_addTCPPort_perm {l1 l2 : List ServicePort} (h : l1.Perm l2) :
    ∀ (acc : Finset Nat), l1.foldl addTCPPort acc = l2.foldl addTCPPort acc := by
  induction h with
  | nil => intro acc; rfl
  | cons x _ ih => intro acc; simp only [List.foldl_cons]; exact ih _
  | swap x y l => intro acc; simp only [List.foldl_cons]; rw [addTCPPort_swap]
  | trans _ _ ih1 ih2 => intro acc; rw [ih1, ih2]

theorem checkServersSt_none_middle (gwName detail : String) (l1 l2 : List Server)
    (ps : Finset Nat) :
    (checkServersSt gwName detail (l1 ++ { port := none } :: l2) ps).1 =
      (checkServersSt gwName detail (l1 ++ l2) ps).1 := by
  rw [checkServersSt_append, checkServersSt_append, checkServersSt_cons]
  simp

/-! The claims. -/

/-- C1: For every gateway with at least one matching workload, the resolved
servicePorts set equals the union, over all workloads matched by the
gateway's selector, of the TCP port numbers of every service in that
workload's namespace whose selector matches that workload's labels —
ports of non-TCP service entries are never added — and the gateway's
listener diagnostics are computed against exactly that set. -/
theorem C1_servicePorts_is_tcp_union (pods : List Pod) (services : List ServiceRes)
    (gw : Gateway)
    (h : ∃ pod ∈ pods, selectorMatches gw.selector pod.labels = true) :
    (∀ p, p ∈ (gatherServicePorts pods services gw.selector).1 ↔
      ∃ pod ∈ pods, selectorMatches gw.selector pod.labels = true ∧
        ∃ svc ∈ services, svc.ns = pod.ns ∧
          selectorMatches svc.selector pod.labels = true ∧
          ∃ q ∈ svc.ports, q.protocol = "TCP" ∧ q.port = p) ∧
    analyzeGateway pods services gw =
      (checkServersSt gw.name (selectorString gw.selector) gw.servers
        (gatherServicePorts pods services gw.selector).1).1 := by
  have hne : (gatherServicePorts pods services gw.selector).2 ≠ 0 := by
    intro h0
    obtain ⟨pod, hmem, hma⟩ := h
    exact (gather_snd_eq_zero pods services gw.selector).mp h0 pod hmem hma
  refine ⟨fun p => mem_gather pods services gw.selector p, ?_⟩
  unfold analyzeGateway
  rw [analyzeGatewaySt_matched pods services defaultIngressGatewayPorts gw hne]

/-- Witness for C1 at Scenario A/B's inputs: port 80 (TCP, exposed by
sampleSvc in samplePod's namespace) is in the resolved set. -/
theorem C1_witness :
    80 ∈ (gatherServicePorts [samplePod] [sampleSvc] sampleGw.selector).1 :=
  ((C1_servicePorts_is_tcp_union [samplePod] [sampleSvc] sampleGw (by decide)).1 80).mpr
    (by decide)

/-- C2: For every gateway whose selector matches zero workloads and is not
exactly the single pair istio=ingressgateway, exactly one
ReferencedResourceNotFound diagnostic (field selector, detail the
selector's string form) is reported on that gateway, and no
GatewayPortNotOnWorkload diagnostics are emitted for it. -/
theorem C2_unmatched_selector_reports_missing (pods : List Pod)
    (services : List ServiceRes) (gw : Gateway)
    (h0 : ∀ pod ∈ pods, ¬ selectorMatches gw.selector pod.labels = true)
    (h1 : gw.selector ≠ [("istio", "ingressgateway")]) :
    analyzeGateway pods services gw =
      [Diag.referencedResourceNotFound gw.name "selector"
        (selectorString gw.selector)] := by
  unfold analyzeGateway
  rw [analyzeGatewaySt_nomatch_other pods services defaultIngressGatewayPorts gw
    ((gather_snd_eq_zero pods services gw.selector).mpr h0) h1]

/-- Witness for C2 at Scenario D's inputs: the unknown selector yields
exactly the one missing-resource diagnostic, despite the port-80
listener. -/
theorem C2_witness :
    analyzeGateway [] [] unknownGw =
      [Diag.referencedResourceNotFound "g" "selector"
        (selectorString [("app", "unknown")])] :=
  C2_unmatched_selector_reports_missing [] [] unknownGw (by simp) (by decide)

/-- C3: For every gateway whose selector matches zero workloads and is
exactly the single pair istio=ingressgateway, listener ports are checked
against exactly the fixed default set of 80, 443, 31400 and 15443: a
declared listener port in that set produces no diagnostic, one outside
it produces a GatewayPortNotOnWorkload diagnostic. -/
theorem C3_system_selector_uses_default_ports (pods : List Pod)
    (services : List ServiceRes) (gw : Gateway)
    (h0 : ∀ pod ∈ pods, ¬ selectorMatches gw.selector pod.labels = true)
    (h1 : gw.selector = [("istio", "ingressgateway")]) :
    defaultIngressGatewayPorts = {80, 443, 31400, 15443} ∧
    analyzeGateway pods services gw =
      (checkServersSt gw.name (selectorString gw.selector) gw.servers
        defaultIngressGatewayPorts).1 ∧
    ∀ n, Diag.gatewayPortNotOnWorkload gw.name (selectorString gw.selector) n ∈
        analyzeGateway pods services gw ↔
      ∃ s ∈ gw.servers, s.port = some n ∧ n ∉ defaultIngressGatewayPorts := by
  have heq : analyzeGateway pods services gw =
      (checkServersSt gw.name (selectorString gw.selector) gw.servers
        defaultIngressGatewayPorts).1 := by
    unfold analyzeGateway
    rw [analyzeGatewaySt_nomatch_system pods services defaultIngressGatewayPorts gw
      ((gather_snd_eq_zero pods services gw.selector).mpr h0) h1]
  refine ⟨rfl, heq, fun n => ?_⟩
  rw [heq]
  exact mem_checkServersSt gw.name (selectorString gw.selector) n gw.servers
    defaultIngressGatewayPorts

/-- Witness for C3 at Scenario C's inputs: systemGw's listener on 31400
(a default port) yields no diagnostic for 31400. -/
theorem C3_witness :
    ¬ Diag.gatewayPortNotOnWorkload systemGw.name (selectorString systemGw.selector)
        31400 ∈ analyzeGateway [] [] systemGw := by
  have h := (C3_system_selector_uses_default_ports [] [] systemGw (by simp) rfl).2.2 31400
  rw [h]
  decide

/-- C4: After servicePorts is resolved, a GatewayPortNotOnWorkload
diagnostic is reported for a listener iff that listener declares a port
number n with n not in servicePorts; every listener is checked, with no
early termination after a failing listener (the checks over any split
of the listener list concatenate). -/
theorem C4_port_diag_iff_not_in_servicePorts (gwName detail : String)
    (l1 l2 : List Server) (ps : Finset Nat) :
    (∀ n, Diag.gatewayPortNotOnWorkload gwName detail n ∈
        (checkServersSt gwName detail (l1 ++ l2) ps).1 ↔
      ∃ s ∈ l1 ++ l2, s.port = some n ∧ n ∉ ps) ∧
    (checkServersSt gwName detail (l1 ++ l2) ps).1 =
      (checkServersSt gwName detail l1 ps).1 ++
        (checkServersSt gwName detail l2 ps).1 :=
  ⟨fun n => mem_checkServersSt gwName detail n (l1 ++ l2) ps,
   checkServersSt_append gwName detail l2 l1 ps⟩

/-- C5: A listener entry with no declared port number never produces a
diagnostic: removing it from anywhere in the server list leaves the
gateway's diagnostics unchanged. -/
theorem C5_portless_listener_skipped (pods : List Pod) (services : List ServiceRes)
    (gw : Gateway) (l1 l2 : List Server) :
    analyzeGateway pods services { gw with servers := l1 ++ { port := none } :: l2 } =
      analyzeGateway pods services { gw with servers := l1 ++ l2 } := by
  unfold analyzeGateway
  by_cases h0 : (gatherServicePorts pods services gw.selector).2 = 0
  · by_cases h1 : gw.selector = [("istio", "ingressgateway")]
    · rw [analyzeGatewaySt_nomatch_system pods services defaultIngressGatewayPorts
          { gw with servers := l1 ++ { port := none } :: l2 } h0 h1,
        analyzeGatewaySt_nomatch_system pods services defaultIngressGatewayPorts
          { gw with servers := l1 ++ l2 } h0 h1]
      exact checkServersSt_none_middle gw.name (selectorString gw.selector) l1 l2 _
    · rw [analyzeGatewaySt_nomatch_other pods services defaultIngressGatewayPorts
          { gw with servers := l1 ++ { port := none } :: l2 } h0 h1,
        analyzeGatewaySt_nomatch_other pods services defaultIngressGatewayPorts
          { gw with servers := l1 ++ l2 } h0 h1]
  · rw [analyzeGatewaySt_matched pods services defaultIngressGatewayPorts
          { gw with servers := l1 ++ { port := none } :: l2 } h0,
        analyzeGatewaySt_matched pods services defaultIngressGatewayPorts
          { gw with servers := l1 ++ l2 } h0]
    exact checkServersSt_none_middle gw.name (selectorString gw.selector) l1 l2 _

/-- C6: A service contributes ports for a matched workload only when the
service's namespace equals the workload's namespace: a service in a
different namespace is a no-op for that workload's service scan — none
of its ports are added, regardless of selector match. -/
theorem C6_cross_namespace_service_ignored (podLabels : Labels) (podNs : String)
    (l1 l2 : List ServiceRes) (svc : ServiceRes) (acc : Finset Nat)
    (h : svc.ns ≠ podNs) :
    svcVisitor podLabels podNs acc svc = (acc, true) ∧
    forEachStop (svcVisitor podLabels podNs) acc (l1 ++ svc :: l2) =
      forEachStop (svcVisitor podLabels podNs) acc (l1 ++ l2) := by
  have hv : ∀ a : Finset Nat, svcVisitor podLabels podNs a svc = (a, true) := by
    intro a
    unfold svcVisitor
    simp [bne_iff_ne, h]
  refine ⟨hv acc, ?_⟩
  induction l1 generalizing acc with
  | nil =>
    simp only [List.nil_append]
    rw [forEachStop_cons_true _ _ _ _ (svcVisitor_continue podLabels podNs acc svc),
      hv acc]
  | cons s l1 ih =>
    simp only [List.cons_append]
    rw [forEachStop_cons_true _ _ _ _ (svcVisitor_continue podLabels podNs acc s),
      forEachStop_cons_true _ _ _ _ (svcVisitor_continue podLabels podNs acc s)]
    exact ih _

/-- Witness for C6: otherNsSvc (namespace other) selects samplePod's
labels but contributes nothing to a scan for a pod in namespace ns. -/
theorem C6_witness :
    svcVisitor [("app", "gw")] "ns" ∅ otherNsSvc = (∅, true) ∧
    forEachStop (svcVisitor [("app", "gw")] "ns") ∅ ([] ++ otherNsSvc :: []) =
      forEachStop (svcVisitor [("app", "gw")] "ns") ∅ ([] ++ []) :=
  C6_cross_namespace_service_ignored [("app", "gw")] "ns" [] [] otherNsSvc ∅ (by decide)

/-- C7: The analysis is deterministic and idempotent: running the
analyzer a second time over the same unchanged snapshot (appending to
the sink holding the first run's diagnostics) produces an identical
second copy of the diagnostic list, and the servicePorts set built from
the same port entries in any insertion order is the same set. -/
theorem C7_deterministic_idempotent (snap : Snapshot) (acc : Finset Nat)
    (l1 l2 : List ServicePort) (h : l1.Perm l2) :
    AnalyzeSink snap (Analyze snap) = Analyze snap ++ Analyze snap ∧
    l1.foldl addTCPPort acc = l2.foldl addTCPPort acc :=
  ⟨AnalyzeSink_eq snap (Analyze snap), foldl_addTCPPort_perm h acc⟩

/-- Witness for C7 at the Scenario A snapshot and a two-element port
list and its transposition. -/
theorem C7_witness :
    AnalyzeSink snapA (Analyze snapA) = Analyze snapA ++ Analyze snapA ∧
    [tcpPortA, udpPortB].foldl addTCPPort ∅ = [udpPortB, tcpPortA].foldl addTCPPort ∅ :=
  C7_deterministic_idempotent snapA ∅ [tcpPortA, udpPortB] [udpPortB, tcpPortA]
    (List.Perm.swap udpPortB tcpPortA [])

/-- C8: Reporting for one gateway never stops the evaluation of other
gateways: the per-gateway visitor always signals continue, and the
snapshot's diagnostics decompose gateway by gateway, each computed from
the pods and services alone, unaffected by the other gateways. -/
theorem C8_gateways_independent (pods : List Pod) (services : List ServiceRes)
    (l1 l2 : List Gateway) (g : Gateway) (acc : List Diag) :
    (gatewayVisitor pods services acc g).2 = true ∧
    Analyze { gateways := l1 ++ g :: l2, pods := pods, services := services } =
      Analyze { gateways := l1, pods := pods, services := services } ++
        analyzeGateway pods services g ++
        Analyze { gateways := l2, pods := pods, services := services } := by
  have hA : ∀ gws : List Gateway,
      Analyze { gateways := gws, pods := pods, services := services } =
        forEachStop (gatewayVisitor pods services) [] gws := fun _ => rfl
  refine ⟨rfl, ?_⟩
  rw [hA, hA, hA, gatewayLoop_append pods services l1 (g :: l2) [],
    forEachStop_cons_true _ _ _ _ rfl,
    gatewayLoop_sink pods services l2
      ((gatewayVisitor pods services
        (forEachStop (gatewayVisitor pods services) [] l1) g).1)]
  simp [gatewayVisitor, List.append_assoc]

/-- C9: The fallback decision depends only on the workload match count,
never on emptiness of servicePorts: with at least one matched workload
but no same-namespace selecting service with a TCP port, servicePorts
stays empty, the default set is not substituted, and every listener
with a declared port produces a GatewayPortNotOnWorkload diagnostic. -/
theorem C9_no_fallback_when_workload_matched (pods : List Pod)
    (services : List ServiceRes) (gw : Gateway)
    (hm : ∃ pod ∈ pods, selectorMatches gw.selector pod.labels = true)
    (hTCP : ∀ pod ∈ pods, selectorMatches gw.selector pod.labels = true →
      ∀ svc ∈ services, svc.ns = pod.ns →
        selectorMatches svc.selector pod.labels = true →
          ∀ q ∈ svc.ports, ¬ q.protocol = "TCP") :
    (gatherServicePorts pods services gw.selector).1 = ∅ ∧
    analyzeGateway pods services gw =
      (gw.servers.filterMap Server.port).map
        (fun n => Diag.gatewayPortNotOnWorkload gw.name (selectorString gw.selector) n) := by
  have hempty : (gatherServicePorts pods services gw.selector).1 = ∅ := by
    apply Finset.eq_empty_iff_forall_not_mem.mpr
    intro p hp
    rw [mem_gather] at hp
    obtain ⟨pod, hpod, hma, svc, hsvc, hns, hsel, q, hq, hproto, -⟩ := hp
    exact hTCP pod hpod hma svc hsvc hns hsel q hq hproto
  have hne : (gatherServicePorts pods services gw.selector).2 ≠ 0 := by
    intro h0
    obtain ⟨pod, hmem, hma⟩ := hm
    exact (gather_snd_eq_zero pods services gw.selector).mp h0 pod hmem hma
  refine ⟨hempty, ?_⟩
  unfold analyzeGateway
  rw [analyzeGatewaySt_matched pods services defaultIngressGatewayPorts gw hne]
  rw [hempty, checkServersSt_empty_ports]

/-- Witness for C9: samplePod matches sampleGw but there is no service
at all, so the 443 listener is flagged even though 443 is in the
default set — the default set was not substituted. -/
theorem C9_witness :
    analyzeGateway [samplePod] [] sampleGw =
      [Diag.gatewayPortNotOnWorkload sampleGw.name (selectorString sampleGw.selector)
        443] := by
  rw [(C9_no_fallback_when_workload_matched [samplePod] [] sampleGw (by decide)
    (by decide)).2]
  rfl

/-- C10: Evaluating a gateway never mutates the global default-ports
table: the table passed in as the threaded global state comes back
unchanged from every gateway evaluation (the fallback only aliases it
and the check loop only reads), and it equals the fixed set of 80, 443,
31400 and 15443. -/
theorem C10_default_table_not_mutated (pods : List Pod) (services : List ServiceRes)
    (defaults : Finset Nat) (gw : Gateway) :
    defaultIngressGatewayPorts = {80, 443, 31400, 15443} ∧
    (analyzeGatewaySt pods services defaults gw).2 = defaults := by
  refine ⟨rfl, ?_⟩
  by_cases h0 : (gatherServicePorts pods services gw.selector).2 = 0
  · by_cases h1 : gw.selector = [("istio", "ingressgateway")]
    · rw [analyzeGatewaySt_nomatch_system pods services defaults gw h0 h1]
      exact checkServersSt_snd gw.name (selectorString gw.selector) gw.servers defaults
    · rw [analyzeGatewaySt_nomatch_other pods services defaults gw h0 h1]
  · rw [analyzeGatewaySt_matched pods services defaults gw h0]

end GatewayAnalysis
